import Mathlib

/-!
Shallow embedding of the Quizlet quiz-administration application
(`src/app.py`) and verification of its specification claims.

The application is a single-file Streamlit CRUD app over a SQLite
database with six tables (users, subjects, chapters, quizzes, questions,
scores).  We model the database as a record of lists of rows, every
mutating request handler as a pure function `DB → args → DB × OpResult`
(the sequential, one-request-at-a-time model: each Streamlit rerun
executes the whole handler, so a check and its subsequent insert happen
inside one function application), and prove the specification claims
about these functions.
-/

/-! ## Python string primitives

The handlers use Python's `str.strip`, `str.split(':')`, `int(...)` and
string truthiness.  We model them on `List Char` so that every function
evaluates inside the kernel.  `int()` accepts surrounding whitespace and
an optional sign followed by decimal digits (underscore digit grouping,
a Python nicety no quiz form exercises, is not modelled).
-/

/-- Characters stripped by Python's `str.strip()` / `int()` whitespace
handling: space, tab, newline, carriage return, vertical tab, form feed. -/
def isPySpace (c : Char) : Bool :=
  c = ' ' ∨ c = '\t' ∨ c = '\n' ∨ c = '\r' ∨ c = '\x0b' ∨ c = '\x0c'

/-- `str.strip()` on the character list: drop leading and trailing whitespace. -/
def pyStripData (l : List Char) : List Char :=
  ((l.dropWhile isPySpace).reverse.dropWhile isPySpace).reverse

/-- Python `str.strip()`. -/
def pyStrip (s : String) : String :=
  ⟨pyStripData s.data⟩

/-- Decimal value of a digit list (caller checks all characters are digits). -/
def digitsVal (l : List Char) : Nat :=
  l.foldl (fun acc c => acc * 10 + (c.toNat - '0'.toNat)) 0

/-- Python `int(s)` on a character list: optional surrounding whitespace,
optional sign, one or more decimal digits; anything else raises
(modelled as `none`). -/
def parsePyIntData (l : List Char) : Option Int :=
  match pyStripData l with
  | '-' :: rest =>
      if rest ≠ [] ∧ rest.all Char.isDigit then some (-(digitsVal rest : Int)) else none
  | '+' :: rest =>
      if rest ≠ [] ∧ rest.all Char.isDigit then some ((digitsVal rest : Int)) else none
  | t =>
      if t ≠ [] ∧ t.all Char.isDigit then some ((digitsVal t : Int)) else none

/-- Python `int(s)` on a string. -/
def parsePyInt (s : String) : Option Int :=
  parsePyIntData s.data

/-- Python `s.split(':')` on a character list. -/
def splitOnColonData : List Char → List (List Char)
  | [] => [[]]
  | c :: rest =>
      if c = ':' then [] :: splitOnColonData rest
      else
        match splitOnColonData rest with
        | [] => [[c]]
        | h :: t => (c :: h) :: t

/-- Python `':' in s`. -/
def hasColon (s : String) : Bool :=
  s.data.contains ':'

/-! ## Data model

One structure per SQLite table (`src/app.py`, `init_db`).  `NOT NULL`
columns are `String`/`Nat`/`Bool`; nullable columns are `Option String`.
`AUTOINCREMENT` ids are modelled by `freshId`.
-/

/-- Row of the `users` table. -/
structure User where
  id : Nat
  username : String
  password : String
  full_name : Option String
  qualification : Option String
  dob : Option String
  role : String
  email : Option String
  last_login : Option String
deriving DecidableEq

/-- Row of the `subjects` table. -/
structure Subject where
  id : Nat
  name : String
  description : String
deriving DecidableEq

/-- Row of the `chapters` table. -/
structure Chapter where
  id : Nat
  subject_id : Nat
  name : String
  description : String
deriving DecidableEq

/-- Row of the `quizzes` table. -/
structure Quiz where
  id : Nat
  chapter_id : Nat
  name : String
  description : String
  date_of_quiz : String
  time_duration : String
  is_active : Bool
deriving DecidableEq

/-- Row of the `questions` table (`option3`/`option4` nullable). -/
structure Question where
  id : Nat
  quiz_id : Nat
  question_statement : String
  option1 : String
  option2 : String
  option3 : Option String
  option4 : Option String
  correct_option : Nat
deriving DecidableEq

/-- Row of the `scores` table. -/
structure Score where
  id : Nat
  quiz_id : Nat
  user_id : Nat
  time_stamp : String
  total_scored : Nat
  total_questions : Nat
deriving DecidableEq

/-- The whole database state. -/
structure DB where
  users : List User
  subjects : List Subject
  chapters : List Chapter
  quizzes : List Quiz
  questions : List Question
  scores : List Score
deriving DecidableEq

/-- A fresh `AUTOINCREMENT` id: one more than the largest id used. -/
def freshId (ids : List Nat) : Nat :=
  ids.foldr max 0 + 1

/-- Outcome of one request-handler execution, matching the success and
error messages the handlers surface on the form. -/
inductive OpResult where
  /-- The mutation committed. -/
  | ok
  /-- A required form field is missing or invalid (`st.error` on the form). -/
  | validationError
  /-- Quiz duration failed to parse as HH:MM with minutes in `[0, 60)`. -/
  | invalidDuration
  /-- Registration hit the `username` UNIQUE constraint (`sqlite3.IntegrityError`). -/
  | duplicateUser
  /-- A delete was blocked because dependent child rows exist. -/
  | hasDependents
  /-- A user delete was blocked because the stored role is `admin`. -/
  | protectedAccount
  /-- Quiz entry was blocked because a Score row already exists for this
  (user, quiz) pair. -/
  | alreadyTaken
  /-- Quiz entry was blocked because the quiz has no questions. -/
  | noQuestions
  /-- The quiz was graded and a Score row inserted. -/
  | graded (score : Nat) (total : Nat)
deriving DecidableEq

/-! ## Session/auth handlers (`register_page`, `login_page`) -/

/-- `register_page` submit handler (`src/app.py:166-184`): mismatched
passwords fail before any database access; an existing username makes the
`INSERT` hit the UNIQUE constraint (`sqlite3.IntegrityError`), committing
nothing; otherwise one row is inserted with only username, password,
full_name and email supplied, so `role` takes its schema default
`'user'` and the remaining columns are NULL. -/
def register (db : DB) (username password confirm_password full_name email : String) :
    DB × OpResult :=
  if password ≠ confirm_password then
    (db, .validationError)
  else if db.users.any (fun u => u.username == username) then
    (db, .duplicateUser)
  else
    ({ db with users := db.users ++
        [{ id := freshId (db.users.map User.id), username := username,
           password := password, full_name := some full_name,
           qualification := none, dob := none, role := "user",
           email := some email, last_login := none }] }, .ok)

/-- Successful-login side effect (`src/app.py:140-144`): set `last_login`
of the row with this username to the current timestamp. -/
def touchLastLogin (db : DB) (username ts : String) : DB × OpResult :=
  ({ db with users := db.users.map (fun u =>
      if u.username == username then { u with last_login := some ts } else u) }, .ok)

/-! ## Subject handlers (`manage_subjects`) -/

/-- "Add New Subject" form (`src/app.py:219-227`): the emptiness check is
on the raw `name` (Python truthiness, before stripping); on success the
stripped name and description are inserted. -/
def addSubject (db : DB) (name description : String) : DB × OpResult :=
  if name = "" then
    (db, .validationError)
  else
    ({ db with subjects := db.subjects ++
        [{ id := freshId (db.subjects.map Subject.id),
           name := pyStrip name, description := pyStrip description }] }, .ok)

/-- "Edit Subject" form (`src/app.py:245-253`): same raw-name check, then
`UPDATE subjects SET name=?, description=? WHERE id=?`. -/
def updateSubject (db : DB) (sid : Nat) (name description : String) : DB × OpResult :=
  if name = "" then
    (db, .validationError)
  else
    ({ db with subjects := db.subjects.map (fun s =>
        if s.id == sid then { s with name := pyStrip name, description := pyStrip description }
        else s) }, .ok)

/-- "Delete Subject" button (`src/app.py:257-265`): count chapters
referencing the subject; if positive fail and change nothing, otherwise
`DELETE FROM subjects WHERE id=?`. -/
def deleteSubject (db : DB) (sid : Nat) : DB × OpResult :=
  if 0 < (db.chapters.filter (fun c => c.subject_id == sid)).length then
    (db, .hasDependents)
  else
    ({ db with subjects := db.subjects.filter (fun s => ¬ s.id == sid) }, .ok)

/-! ## Chapter handlers (`manage_chapters`) -/

/-- "Add New Chapter" form (`src/app.py:294-302`). -/
def addChapter (db : DB) (subject_id : Nat) (name description : String) : DB × OpResult :=
  if name = "" then
    (db, .validationError)
  else
    ({ db with chapters := db.chapters ++
        [{ id := freshId (db.chapters.map Chapter.id), subject_id := subject_id,
           name := pyStrip name, description := pyStrip description }] }, .ok)

/-- "Edit Chapter" form (`src/app.py:328-336`). -/
def updateChapter (db : DB) (cid subject_id : Nat) (name description : String) :
    DB × OpResult :=
  if name = "" then
    (db, .validationError)
  else
    ({ db with chapters := db.chapters.map (fun c =>
        if c.id == cid then
          { c with subject_id := subject_id, name := pyStrip name,
                   description := pyStrip description }
        else c) }, .ok)

/-- "Delete Chapter" button (`src/app.py:340-348`): blocked while any quiz
references the chapter. -/
def deleteChapter (db : DB) (cid : Nat) : DB × OpResult :=
  if 0 < (db.quizzes.filter (fun q => q.chapter_id == cid)).length then
    (db, .hasDependents)
  else
    ({ db with chapters := db.chapters.filter (fun c => ¬ c.id == cid) }, .ok)

/-! ## Quiz handlers (`manage_quizzes`) -/

/-- The duration validation shared verbatim by the add form
(`src/app.py:386-388`) and the edit form (`src/app.py:440-442`):
`hours, minutes = map(int, s.split(':'))` (raising unless the split has
exactly two int-parsable parts) followed by
`if hours < 0 or minutes < 0 or minutes >= 60: raise ValueError`. -/
def parseDuration (s : String) : Option (Int × Int) :=
  match (splitOnColonData s.data).map parsePyIntData with
  | [some h, some m] => some (h, m)
  | _ => none

/-- `True` exactly when the `try` block of the duration validation reaches
the SQL statement. -/
def durationValid (s : String) : Bool :=
  match parseDuration s with
  | some (h, m) => ¬ (h < 0 ∨ m < 0 ∨ 60 ≤ m)
  | none => false

/-- "Add New Quiz" form (`src/app.py:380-396`): the first check rejects an
empty name, an empty duration, or a duration without a colon with the
generic required-fields error; then the duration validation runs; on
success the quiz is inserted without an `is_active` value, so the schema
default `1` (active) applies. -/
def addQuiz (db : DB) (chapter_id : Nat) (name description date_of_quiz time_duration : String) :
    DB × OpResult :=
  if name = "" ∨ time_duration = "" ∨ ¬ hasColon time_duration then
    (db, .validationError)
  else if durationValid time_duration then
    ({ db with quizzes := db.quizzes ++
        [{ id := freshId (db.quizzes.map Quiz.id), chapter_id := chapter_id,
           name := pyStrip name, description := pyStrip description,
           date_of_quiz := date_of_quiz, time_duration := time_duration,
           is_active := true }] }, .ok)
  else
    (db, .invalidDuration)

/-- "Edit Quiz" form (`src/app.py:434-452`): same checks, then
`UPDATE quizzes SET chapter_id=?, name=?, description=?, date_of_quiz=?,
time_duration=?, is_active=? WHERE id=?`. -/
def updateQuiz (db : DB) (qid chapter_id : Nat)
    (name description date_of_quiz time_duration : String) (is_active : Bool) :
    DB × OpResult :=
  if name = "" ∨ time_duration = "" ∨ ¬ hasColon time_duration then
    (db, .validationError)
  else if durationValid time_duration then
    ({ db with quizzes := db.quizzes.map (fun q =>
        if q.id == qid then
          { q with chapter_id := chapter_id, name := pyStrip name,
                   description := pyStrip description, date_of_quiz := date_of_quiz,
                   time_duration := time_duration, is_active := is_active }
        else q) }, .ok)
  else
    (db, .invalidDuration)

/-- "Delete Quiz" button (`src/app.py:456-464`): the guard counts only
`questions` rows; `scores` rows referencing the quiz are not consulted. -/
def deleteQuiz (db : DB) (qid : Nat) : DB × OpResult :=
  if 0 < (db.questions.filter (fun q => q.quiz_id == qid)).length then
    (db, .hasDependents)
  else
    ({ db with quizzes := db.quizzes.filter (fun q => ¬ q.id == qid) }, .ok)

/-! ## Question handlers (`manage_questions`) -/

/-- "Add New Question" form (`src/app.py:503-516`): only the statement and
the first two options are checked non-empty (raw, before stripping);
`correct_option` comes from a radio over `[1, 2, 3, 4]` and is inserted
without any populated-slot check; empty `option3`/`option4` are stored as
NULL (`option3.strip() if option3 else None`). -/
def addQuestion (db : DB) (quiz_id : Nat)
    (statement option1 option2 option3 option4 : String) (correct_option : Nat) :
    DB × OpResult :=
  if statement = "" ∨ option1 = "" ∨ option2 = "" then
    (db, .validationError)
  else
    ({ db with questions := db.questions ++
        [{ id := freshId (db.questions.map Question.id), quiz_id := quiz_id,
           question_statement := pyStrip statement,
           option1 := pyStrip option1, option2 := pyStrip option2,
           option3 := if option3 = "" then none else some (pyStrip option3),
           option4 := if option4 = "" then none else some (pyStrip option4),
           correct_option := correct_option }] }, .ok)

/-- "Edit Question" form (`src/app.py:551-564`): same checks and NULL
handling, then an `UPDATE ... WHERE id=?`. -/
def updateQuestion (db : DB) (qid quiz_id : Nat)
    (statement option1 option2 option3 option4 : String) (correct_option : Nat) :
    DB × OpResult :=
  if statement = "" ∨ option1 = "" ∨ option2 = "" then
    (db, .validationError)
  else
    ({ db with questions := db.questions.map (fun q =>
        if q.id == qid then
          { q with quiz_id := quiz_id, question_statement := pyStrip statement,
                   option1 := pyStrip option1, option2 := pyStrip option2,
                   option3 := if option3 = "" then none else some (pyStrip option3),
                   option4 := if option4 = "" then none else some (pyStrip option4),
                   correct_option := correct_option }
        else q) }, .ok)

/-- "Delete Question" button (`src/app.py:568-573`): unconditional. -/
def deleteQuestion (db : DB) (qid : Nat) : DB × OpResult :=
  ({ db with questions := db.questions.filter (fun q => ¬ q.id == qid) }, .ok)

/-! ## User-management handlers (`manage_users`) -/

/-- "Edit User" form (`src/app.py:606-615`):
`UPDATE users SET full_name=?, qualification=?, dob=?, email=?, role=?
WHERE id=?` — `username`, `password` and `last_login` are not in the SET
list, and the row keeps its id. -/
def adminUpdateUser (db : DB) (uid : Nat) (full_name qualification dob email role : String) :
    DB × OpResult :=
  ({ db with users := db.users.map (fun u =>
      if u.id == uid then
        { u with full_name := some (pyStrip full_name),
                 qualification := some (pyStrip qualification),
                 dob := some dob, email := some (pyStrip email), role := role }
      else u) }, .ok)

/-- "Delete User" button (`src/app.py:619-634`): fetch the target row's
stored role first — an `admin` role blocks the delete before any score
check; then the score count blocks it; otherwise
`DELETE FROM users WHERE id=?`.  No caller identity is consulted.  The
handler dereferences `fetchone()[0]`, so it presupposes the selected id
exists (the UI only offers ids from the listing). -/
def deleteUser (db : DB) (uid : Nat) : DB × OpResult :=
  match db.users.find? (fun u => u.id == uid) with
  | none => (db, .validationError)
  | some u =>
      if u.role = "admin" then
        (db, .protectedAccount)
      else if 0 < (db.scores.filter (fun s => s.user_id == uid)).length then
        (db, .hasDependents)
      else
        ({ db with users := db.users.filter (fun v => ¬ v.id == uid) }, .ok)

/-! ## Profile handler (`user_profile`) -/

/-- "Update Profile" form (`src/app.py:933-950`): the password check is
`if new_password and new_password != confirm_password` — an empty new
password skips both the check and the password column; the UPDATE sets
full_name, qualification, dob, email (and password when supplied)
`WHERE username=?` for the authenticated username. -/
def profileUpdate (db : DB) (username : String)
    (full_name qualification dob email new_password confirm_password : String) :
    DB × OpResult :=
  if new_password ≠ "" ∧ new_password ≠ confirm_password then
    (db, .validationError)
  else
    ({ db with users := db.users.map (fun u =>
        if u.username == username then
          { u with full_name := some (pyStrip full_name),
                   qualification := some (pyStrip qualification),
                   dob := some dob, email := some (pyStrip email),
                   password := if new_password ≠ "" then new_password else u.password }
        else u) }, .ok)

/-! ## Quiz taking and grading (`take_quiz`) -/

/-- The grading loop's per-option test (`src/app.py:848`):
`if opt and opt == user_answer` — a NULL or empty option slot is skipped
by Python truthiness, otherwise the stored text is compared with the
submitted answer text. -/
def pyOptMatches (o : Option String) (ans : String) : Bool :=
  match o with
  | none => false
  | some s => ¬ s = "" ∧ s = ans

/-- The question's four option slots in positional order, as the grading
loop's `SELECT option1, option2, option3, option4` returns them. -/
def questionSlots (q : Question) : List (Option String) :=
  [some q.option1, some q.option2, q.option3, q.option4]

/-- The grading loop (`src/app.py:846-850`): enumerate the four slots from
1, return the index of the first slot that matches the submitted text. -/
def findSelected : List (Option String) → String → Nat → Option Nat
  | [], _, _ => none
  | o :: rest, ans, i =>
      if pyOptMatches o ans then some i else findSelected rest ans (i + 1)

/-- One question's contribution to the score (`src/app.py:838-853`): one
point exactly when the recovered 1-based index equals the stored
`correct_option` (an unmatched answer leaves `selected_option = None`,
which never equals the integer `correct_option`). -/
def gradeQuestion (q : Question) (ans : String) : Nat :=
  match findSelected (questionSlots q) ans 1 with
  | some i => if i = q.correct_option then 1 else 0
  | none => 0

/-- `take_quiz` (`src/app.py:771-867`) for one selected quiz, in the
sequential model where the rerun that handles the submission re-executes
the whole handler: the already-taken check (`src/app.py:793-801`) runs
before any question is fetched or rendered; a quiz with no questions is
blocked (`src/app.py:813-816`); otherwise every question is graded
against the submitted answer text (`answers` maps each question id to
the selected option text) and one Score row is inserted with
`total_questions` = the number of questions at this moment. -/
def takeQuiz (db : DB) (quiz_id user_id : Nat) (answers : Nat → String) (ts : String) :
    DB × OpResult :=
  if 0 < (db.scores.filter (fun s => s.quiz_id == quiz_id && s.user_id == user_id)).length then
    (db, .alreadyTaken)
  else
    let qs := db.questions.filter (fun q => q.quiz_id == quiz_id)
    if qs = [] then
      (db, .noQuestions)
    else
      let score := (qs.map (fun q => gradeQuestion q (answers q.id))).sum
      ({ db with scores := db.scores ++
          [{ id := freshId (db.scores.map Score.id), quiz_id := quiz_id,
             user_id := user_id, time_stamp := ts, total_scored := score,
             total_questions := qs.length }] }, .graded score qs.length)

/-! ## The system's mutating operations as a step relation -/

/-- One mutating request of the application: every form handler of
`src/app.py` that writes to the database, applied with arbitrary inputs. -/
inductive Step : DB → DB → Prop
  | register (db : DB) (username password confirm_password full_name email : String) :
      Step db (register db username password confirm_password full_name email).1
  | touchLastLogin (db : DB) (username ts : String) :
      Step db (touchLastLogin db username ts).1
  | addSubject (db : DB) (name description : String) :
      Step db (addSubject db name description).1
  | updateSubject (db : DB) (sid : Nat) (name description : String) :
      Step db (updateSubject db sid name description).1
  | deleteSubject (db : DB) (sid : Nat) :
      Step db (deleteSubject db sid).1
  | addChapter (db : DB) (subject_id : Nat) (name description : String) :
      Step db (addChapter db subject_id name description).1
  | updateChapter (db : DB) (cid subject_id : Nat) (name description : String) :
      Step db (updateChapter db cid subject_id name description).1
  | deleteChapter (db : DB) (cid : Nat) :
      Step db (deleteChapter db cid).1
  | addQuiz (db : DB) (chapter_id : Nat) (name description date_of_quiz time_duration : String) :
      Step db (addQuiz db chapter_id name description date_of_quiz time_duration).1
  | updateQuiz (db : DB) (qid chapter_id : Nat)
      (name description date_of_quiz time_duration : String) (is_active : Bool) :
      Step db (updateQuiz db qid chapter_id name description date_of_quiz time_duration is_active).1
  | deleteQuiz (db : DB) (qid : Nat) :
      Step db (deleteQuiz db qid).1
  | addQuestion (db : DB) (quiz_id : Nat)
      (statement option1 option2 option3 option4 : String) (correct_option : Nat) :
      Step db (addQuestion db quiz_id statement option1 option2 option3 option4 correct_option).1
  | updateQuestion (db : DB) (qid quiz_id : Nat)
      (statement option1 option2 option3 option4 : String) (correct_option : Nat) :
      Step db
        (updateQuestion db qid quiz_id statement option1 option2 option3 option4 correct_option).1
  | deleteQuestion (db : DB) (qid : Nat) :
      Step db (deleteQuestion db qid).1
  | adminUpdateUser (db : DB) (uid : Nat) (full_name qualification dob email role : String) :
      Step db (adminUpdateUser db uid full_name qualification dob email role).1
  | deleteUser (db : DB) (uid : Nat) :
      Step db (deleteUser db uid).1
  | profileUpdate (db : DB) (username : String)
      (full_name qualification dob email new_password confirm_password : String) :
      Step db
        (profileUpdate db username full_name qualification dob email new_password
          confirm_password).1
  | takeQuiz (db : DB) (quiz_id user_id : Nat) (answers : Nat → String) (ts : String) :
      Step db (takeQuiz db quiz_id user_id answers ts).1

/-- Number of Score rows for one (quiz, user) pair — the quantity the
already-taken guard's `SELECT COUNT(*)` computes. -/
def scoreCount (db : DB) (quiz_id user_id : Nat) : Nat :=
  (db.scores.filter (fun s => s.quiz_id == quiz_id && s.user_id == user_id)).length

/-- The Score-uniqueness invariant: at most one Score row per
(user, quiz) pair. -/
def ScoreUnique (db : DB) : Prop :=
  ∀ q u, scoreCount db q u ≤ 1

/-! ## Spec-side description of the grading match (for claim C1) -/

/-- The specification's notion of a slot match: the slot is populated
(neither NULL nor empty) and its text equals the selected option text. -/
def slotTextEq (o : Option String) (ans : String) : Bool :=
  match o with
  | none => false
  | some s => if s = "" then false else s = ans

/-- Recover the chosen option number as the specification words it: match
the selection against the four option slots positionally, 1-based, taking
the first slot whose text equals the selection. -/
def specRecoverIdx (q : Question) (ans : String) : Option Nat :=
  [1, 2, 3, 4].find? (fun i => slotTextEq ((questionSlots q).getD (i - 1) none) ans)

theorem pyOptMatches_eq_slotTextEq (o : Option String) (ans : String) :
    pyOptMatches o ans = slotTextEq o ans := by
  cases o with
  | none => rfl
  | some s => by_cases h : s = "" <;> simp [pyOptMatches, slotTextEq, h]

theorem findSelected_eq_specRecoverIdx (q : Question) (ans : String) :
    findSelected (questionSlots q) ans 1 = specRecoverIdx q ans := by
  rcases q with ⟨i, qz, st, o1, o2, o3, o4, co⟩
  simp only [questionSlots, specRecoverIdx, findSelected, List.find?, List.getD,
    List.get?, pyOptMatches_eq_slotTextEq]
  cases h1 : slotTextEq (some o1) ans <;>
    cases h2 : slotTextEq (some o2) ans <;>
      cases h3 : slotTextEq o3 ans <;>
        cases h4 : slotTextEq o4 ans <;>
          simp [h1, h2, h3, h4]

/-! ## Demonstration fixtures -/

/-- A question with options ["A", "B", "C", "D"] and `correct_option = 3`. -/
def demoQuestion : Question :=
  { id := 1, quiz_id := 1, question_statement := "Pick C",
    option1 := "A", option2 := "B", option3 := some "C", option4 := some "D",
    correct_option := 3 }

/-- An active one-question quiz. -/
def demoQuiz : Quiz :=
  { id := 1, chapter_id := 1, name := "Quiz1", description := "",
    date_of_quiz := "2026-01-01", time_duration := "00:30", is_active := true }

/-- A non-admin user who has not yet taken `demoQuiz`. -/
def demoUser : User :=
  { id := 5, username := "alice", password := "pw", full_name := some "Alice",
    qualification := none, dob := none, role := "user", email := none,
    last_login := none }

/-- Database holding `demoQuiz` with its single question and no scores. -/
def demoDB : DB :=
  { users := [demoUser], subjects := [], chapters := [], quizzes := [demoQuiz],
    questions := [demoQuestion], scores := [] }

/-- Claim C1.  For every quiz submission, the grading of each answered
question re-looks-up the question's four option slots and its
`correct_option` index, matches the user's selected option text against
the option slots positionally (1-based, taking the first slot whose text
equals the selection when texts are duplicated), and awards one point
exactly when the recovered index equals `correct_option`; in particular,
for a quiz with one question whose options are ["A","B","C","D"] and
`correct_option = 3`, submitting "C" yields score 1 of 1 and submitting
"A" yields score 0 of 1. -/
theorem C1_grading_positional_first_match :
    (∀ q ans, gradeQuestion q ans =
        if specRecoverIdx q ans = some q.correct_option then 1 else 0)
    ∧ (takeQuiz demoDB 1 5 (fun _ => "C") "2026-01-01 10:00:00").2 = .graded 1 1
    ∧ (takeQuiz demoDB 1 5 (fun _ => "A") "2026-01-01 10:00:00").2 = .graded 0 1 := by
  refine ⟨fun q ans => ?_, by decide, by decide⟩
  rw [gradeQuestion, findSelected_eq_specRecoverIdx]
  cases h : specRecoverIdx q ans <;> simp [h]

/-! ## Score-uniqueness preservation (claim C2) -/

theorem scoreUnique_of_scores_eq {db db' : DB} (h : db'.scores = db.scores) :
    ScoreUnique db → ScoreUnique db' := by
  intro hu q u
  have : scoreCount db' q u = scoreCount db q u := by rw [scoreCount, h, scoreCount]
  rw [this]; exact hu q u

theorem register_scores (db : DB) (a b c d e : String) :
    (register db a b c d e).1.scores = db.scores := by
  rw [register]; split
  · rfl
  · split <;> rfl

theorem touchLastLogin_scores (db : DB) (a b : String) :
    (touchLastLogin db a b).1.scores = db.scores := rfl

theorem addSubject_scores (db : DB) (a b : String) :
    (addSubject db a b).1.scores = db.scores := by
  rw [addSubject]; split <;> rfl

theorem updateSubject_scores (db : DB) (i : Nat) (a b : String) :
    (updateSubject db i a b).1.scores = db.scores := by
  rw [updateSubject]; split <;> rfl

theorem deleteSubject_scores (db : DB) (i : Nat) :
    (deleteSubject db i).1.scores = db.scores := by
  rw [deleteSubject]; split <;> rfl

theorem addChapter_scores (db : DB) (i : Nat) (a b : String) :
    (addChapter db i a b).1.scores = db.scores := by
  rw [addChapter]; split <;> rfl

theorem updateChapter_scores (db : DB) (i j : Nat) (a b : String) :
    (updateChapter db i j a b).1.scores = db.scores := by
  rw [updateChapter]; split <;> rfl

theorem deleteChapter_scores (db : DB) (i : Nat) :
    (deleteChapter db i).1.scores = db.scores := by
  rw [deleteChapter]; split <;> rfl

theorem addQuiz_scores (db : DB) (i : Nat) (a b c d : String) :
    (addQuiz db i a b c d).1.scores = db.scores := by
  rw [addQuiz]; split
  · rfl
  · split <;> rfl

theorem updateQuiz_scores (db : DB) (i j : Nat) (a b c d : String) (e : Bool) :
    (updateQuiz db i j a b c d e).1.scores = db.scores := by
  rw [updateQuiz]; split
  · rfl
  · split <;> rfl

theorem deleteQuiz_scores (db : DB) (i : Nat) :
    (deleteQuiz db i).1.scores = db.scores := by
  rw [deleteQuiz]; split <;> rfl

theorem addQuestion_scores (db : DB) (i : Nat) (a b c d e : String) (n : Nat) :
    (addQuestion db i a b c d e n).1.scores = db.scores := by
  rw [addQuestion]; split <;> rfl

theorem updateQuestion_scores (db : DB) (i j : Nat) (a b c d e : String) (n : Nat) :
    (updateQuestion db i j a b c d e n).1.scores = db.scores := by
  rw [updateQuestion]; split <;> rfl

theorem deleteQuestion_scores (db : DB) (i : Nat) :
    (deleteQuestion db i).1.scores = db.scores := rfl

theorem adminUpdateUser_scores (db : DB) (i : Nat) (a b c d e : String) :
    (adminUpdateUser db i a b c d e).1.scores = db.scores := rfl

theorem deleteUser_scores (db : DB) (i : Nat) :
    (deleteUser db i).1.scores = db.scores := by
  rw [deleteUser]
  cases db.users.find? (fun u => u.id == i) with
  | none => rfl
  | some u =>
      simp only []
      split
      · rfl
      · split <;> rfl

theorem profileUpdate_scores (db : DB) (a b c d e f g : String) :
    (profileUpdate db a b c d e f g).1.scores = db.scores := by
  rw [profileUpdate]; split <;> rfl

theorem takeQuiz_preserves_scoreUnique (db : DB) (qid uid : Nat)
    (answers : Nat → String) (ts : String) (hu : ScoreUnique db) :
    ScoreUnique (takeQuiz db qid uid answers ts).1 := by
  simp only [takeQuiz]
  split
  · exact hu
  · rename_i hno
    split
    · exact hu
    · intro q u
      rw [scoreCount]
      simp only [List.filter_append, List.length_append]
      by_cases hm : (qid == q && uid == u) = true
      · have hm' : qid = q ∧ uid = u := by simpa using hm
        obtain ⟨hq, hv⟩ := hm'
        subst hq; subst hv
        have h0 : (db.scores.filter
            (fun s => s.quiz_id == qid && s.user_id == uid)).length = 0 :=
          Nat.eq_zero_of_not_pos hno
        simp [h0, List.filter_cons]
      · simp only [List.filter_cons, List.filter_nil, hm, if_false, Bool.false_eq_true,
          List.length_nil, Nat.add_zero]
        exact hu q u

/-- Claim C2.  In the sequential (one request at a time) model, whenever a
Score row already exists for (user, quiz) the quiz entry is blocked (the
handler returns before any question is fetched or rendered and the state
is unchanged), and the at-most-one-Score-per-(user, quiz) invariant is
preserved by every mutating operation of the system. -/
theorem C2_score_per_pair_unique :
    (∀ db quiz_id user_id answers ts, 0 < scoreCount db quiz_id user_id →
        takeQuiz db quiz_id user_id answers ts = (db, OpResult.alreadyTaken))
    ∧ (∀ db db', ScoreUnique db → Step db db' → ScoreUnique db') := by
  constructor
  · intro db quiz_id user_id answers ts h
    rw [scoreCount] at h
    rw [takeQuiz, if_pos h]
  · intro db db' hu hstep
    cases hstep with
    | register a b c d e => exact scoreUnique_of_scores_eq (register_scores db a b c d e) hu
    | touchLastLogin a b => exact scoreUnique_of_scores_eq (touchLastLogin_scores db a b) hu
    | addSubject a b => exact scoreUnique_of_scores_eq (addSubject_scores db a b) hu
    | updateSubject i a b => exact scoreUnique_of_scores_eq (updateSubject_scores db i a b) hu
    | deleteSubject i => exact scoreUnique_of_scores_eq (deleteSubject_scores db i) hu
    | addChapter i a b => exact scoreUnique_of_scores_eq (addChapter_scores db i a b) hu
    | updateChapter i j a b =>
        exact scoreUnique_of_scores_eq (updateChapter_scores db i j a b) hu
    | deleteChapter i => exact scoreUnique_of_scores_eq (deleteChapter_scores db i) hu
    | addQuiz i a b c d => exact scoreUnique_of_scores_eq (addQuiz_scores db i a b c d) hu
    | updateQuiz i j a b c d e =>
        exact scoreUnique_of_scores_eq (updateQuiz_scores db i j a b c d e) hu
    | deleteQuiz i => exact scoreUnique_of_scores_eq (deleteQuiz_scores db i) hu
    | addQuestion i a b c d e n =>
        exact scoreUnique_of_scores_eq (addQuestion_scores db i a b c d e n) hu
    | updateQuestion i j a b c d e n =>
        exact scoreUnique_of_scores_eq (updateQuestion_scores db i j a b c d e n) hu
    | deleteQuestion i => exact scoreUnique_of_scores_eq (deleteQuestion_scores db i) hu
    | adminUpdateUser i a b c d e =>
        exact scoreUnique_of_scores_eq (adminUpdateUser_scores db i a b c d e) hu
    | deleteUser i => exact scoreUnique_of_scores_eq (deleteUser_scores db i) hu
    | profileUpdate a b c d e f g =>
        exact scoreUnique_of_scores_eq (profileUpdate_scores db a b c d e f g) hu
    | takeQuiz quiz_id user_id answers ts =>
        exact takeQuiz_preserves_scoreUnique db quiz_id user_id answers ts hu

/-- Database in which `demoUser` has already taken `demoQuiz`. -/
def demoDBTaken : DB :=
  { demoDB with scores :=
      [{ id := 1, quiz_id := 1, user_id := 5, time_stamp := "2026-01-01 10:00:00",
         total_scored := 1, total_questions := 1 }] }

theorem C2_score_per_pair_unique_witness :
    takeQuiz demoDBTaken 1 5 (fun _ => "C") "2026-01-01 11:00:00"
        = (demoDBTaken, OpResult.alreadyTaken)
    ∧ ScoreUnique (takeQuiz demoDBTaken 1 5 (fun _ => "C") "2026-01-01 11:00:00").1 :=
  ⟨C2_score_per_pair_unique.1 demoDBTaken 1 5 (fun _ => "C") "2026-01-01 11:00:00"
      (by decide),
   C2_score_per_pair_unique.2 demoDBTaken _
      (fun q u => by
        rw [scoreCount]
        exact le_trans (List.length_filter_le _ _) (by decide))
      (Step.takeQuiz demoDBTaken 1 5 (fun _ => "C") "2026-01-01 11:00:00")⟩

/-! ## Duration validation (claim C3) -/

/-- The empty database. -/
def emptyDB : DB :=
  { users := [], subjects := [], chapters := [], quizzes := [], questions := [],
    scores := [] }

theorem splitOnColonData_of_not_mem (l : List Char) (h : ':' ∉ l) :
    splitOnColonData l = [l] := by
  induction l with
  | nil => rfl
  | cons c rest ih =>
      have hc : ¬ c = ':' := fun hc => h (by rw [hc]; exact List.mem_cons_self _ _)
      have hr : ':' ∉ rest := fun hm => h (List.mem_cons_of_mem _ hm)
      rw [splitOnColonData, if_neg hc, ih hr]

/-- A duration that parses necessarily contains a colon and is non-empty,
so it passes the required-fields pre-check whenever the name does. -/
theorem parseDuration_some_shape {s : String} {h m : Int}
    (hp : parseDuration s = some (h, m)) : hasColon s = true ∧ s ≠ "" := by
  constructor
  · by_cases hc : hasColon s = true
    · exact hc
    · exfalso
      have hmem : ':' ∉ s.data := by
        intro hmem
        exact hc (by simpa [hasColon] using hmem)
      rw [parseDuration, splitOnColonData_of_not_mem s.data hmem] at hp
      cases hq : parsePyIntData s.data <;> simp [hq] at hp
  · intro he
    subst he
    have hnone : parseDuration "" = none := rfl
    rw [hnone] at hp
    exact Option.noConfusion hp

theorem durationValid_of_parse {s : String} {h m : Int}
    (hp : parseDuration s = some (h, m)) :
    durationValid s = decide (¬ (h < 0 ∨ m < 0 ∨ 60 ≤ m)) := by
  rw [durationValid, hp]

/-- Claim C3 (amended).  Quiz creation and update validate the duration
string by splitting on ':' into two `int()`-parsable parts with
`hours ≥ 0` and `0 ≤ minutes < 60`, failing with InvalidDurationError
otherwise; every duration whose minutes part is ≥ 60 is rejected with the
state unchanged; "00:30" is accepted; and "25:00" is ALSO accepted, since
the code places no upper bound on the hours part. -/
theorem C3_duration_validation (db : DB) (cid qid : Nat)
    (name desc date dur : String) (act : Bool) (h m : Int) :
    name ≠ "" →
    ((parseDuration dur = some (h, m) →
        (60 ≤ m →
          addQuiz db cid name desc date dur = (db, OpResult.invalidDuration)
          ∧ updateQuiz db qid cid name desc date dur act = (db, OpResult.invalidDuration))
        ∧ (0 ≤ h → 0 ≤ m → m < 60 →
          (addQuiz db cid name desc date dur).2 = OpResult.ok
          ∧ (updateQuiz db qid cid name desc date dur act).2 = OpResult.ok))
      ∧ (addQuiz db cid name desc date "00:30").2 = OpResult.ok
      ∧ (addQuiz db cid name desc date "25:00").2 = OpResult.ok) := by
  intro hname
  have pre : ∀ (s : String) (h' m' : Int), parseDuration s = some (h', m') →
      ¬ (name = "" ∨ s = "" ∨ ¬ hasColon s = true) := by
    intro s h' m' hp
    obtain ⟨hcol, hne⟩ := parseDuration_some_shape hp
    push_neg
    exact ⟨hname, hne, hcol⟩
  refine ⟨fun hp => ⟨fun h60 => ?_, fun hh hm0 hlt => ?_⟩, ?_, ?_⟩
  · have hdv : durationValid dur = false := by
      rw [durationValid_of_parse hp]
      simp only [decide_eq_false_iff_not, not_not]
      exact Or.inr (Or.inr h60)
    constructor
    · rw [addQuiz, if_neg (pre dur h m hp), if_neg (by simp [hdv])]
    · rw [updateQuiz, if_neg (pre dur h m hp), if_neg (by simp [hdv])]
  · have hdv : durationValid dur = true := by
      rw [durationValid_of_parse hp]
      simp only [decide_eq_true_eq]
      push_neg
      exact ⟨hh, hm0, hlt⟩
    constructor
    · rw [addQuiz, if_neg (pre dur h m hp), if_pos hdv]
    · rw [updateQuiz, if_neg (pre dur h m hp), if_pos hdv]
  · have hp30 : parseDuration "00:30" = some (0, 30) := by decide
    rw [addQuiz, if_neg (pre "00:30" 0 30 hp30), if_pos (by decide)]
  · have hp25 : parseDuration "25:00" = some (25, 0) := by decide
    rw [addQuiz, if_neg (pre "25:00" 25 0 hp25), if_pos (by decide)]

theorem C3_duration_validation_witness :
    (addQuiz emptyDB 1 "Quiz1" "" "2026-01-01" "00:99"
        = (emptyDB, OpResult.invalidDuration))
    ∧ (addQuiz emptyDB 1 "Quiz1" "" "2026-01-01" "00:30").2 = OpResult.ok :=
  ⟨((C3_duration_validation emptyDB 1 1 "Quiz1" "" "2026-01-01" "00:99" true 0 99
        (by decide)).1 (by decide)).1 (by decide) |>.1,
   ((C3_duration_validation emptyDB 1 1 "Quiz1" "" "2026-01-01" "00:30" true 0 30
        (by decide)).1 (by decide)).2 (by decide) (by decide) (by decide) |>.1⟩

/-- Contradicts claim C3 as stated: the duration "25:00" is NOT rejected —
the add-quiz handler inserts the quiz and reports success. -/
theorem C3_counterexample_25_00_accepted :
    (addQuiz emptyDB 1 "Quiz1" "" "2026-01-01" "25:00").2 = OpResult.ok
    ∧ ((addQuiz emptyDB 1 "Quiz1" "" "2026-01-01" "25:00").1.quizzes.map
        Quiz.time_duration) = ["25:00"] := by
  decide

/-! ## Question validation (claim C4) -/

/-- Claim C4 (amended).  Question creation and update validate ONLY that
the statement, option1 and option2 are non-empty (failing with
ValidationError and leaving the state unchanged otherwise);
`correct_option` is supplied by a radio control over {1,2,3,4} and is
persisted exactly as given — the handlers never check that it references
a populated option slot, so an input whose `correct_option` names an
empty option3 or option4 is persisted successfully. -/
theorem C4_correct_option_not_slot_checked (db : DB) (qid quiz_id : Nat)
    (stmt o1 o2 o3 o4 : String) (co : Nat) :
    (stmt = "" ∨ o1 = "" ∨ o2 = "" →
        addQuestion db quiz_id stmt o1 o2 o3 o4 co = (db, OpResult.validationError)
        ∧ updateQuestion db qid quiz_id stmt o1 o2 o3 o4 co
            = (db, OpResult.validationError))
    ∧ (stmt ≠ "" → o1 ≠ "" → o2 ≠ "" →
        (addQuestion db quiz_id stmt o1 o2 o3 o4 co).2 = OpResult.ok
        ∧ (∃ q, (addQuestion db quiz_id stmt o1 o2 o3 o4 co).1.questions
              = db.questions ++ [q]
            ∧ q.correct_option = co
            ∧ (o3 = "" → q.option3 = none)
            ∧ (o4 = "" → q.option4 = none))
        ∧ (updateQuestion db qid quiz_id stmt o1 o2 o3 o4 co).2 = OpResult.ok
        ∧ (∀ q ∈ (updateQuestion db qid quiz_id stmt o1 o2 o3 o4 co).1.questions,
            q.correct_option = co ∨ q ∈ db.questions)) := by
  constructor
  · intro hbad
    constructor
    · rw [addQuestion, if_pos hbad]
    · rw [updateQuestion, if_pos hbad]
  · intro h1 h2 h3
    have hgood : ¬ (stmt = "" ∨ o1 = "" ∨ o2 = "") := by
      push_neg
      exact ⟨h1, h2, h3⟩
    refine ⟨?_, ?_, ?_, ?_⟩
    · rw [addQuestion, if_neg hgood]
    · rw [addQuestion, if_neg hgood]
      refine ⟨_, rfl, rfl, fun h => ?_, fun h => ?_⟩ <;> simp [h]
    · rw [updateQuestion, if_neg hgood]
    · rw [updateQuestion, if_neg hgood]
      intro q hq
      simp only [List.mem_map] at hq
      obtain ⟨x, hx, hfx⟩ := hq
      by_cases hid : (x.id == qid) = true
      · rw [if_pos hid] at hfx
        exact Or.inl (by rw [← hfx])
      · rw [if_neg hid] at hfx
        exact Or.inr (hfx ▸ hx)

theorem C4_correct_option_not_slot_checked_witness :
    (addQuestion emptyDB 1 "" "a" "b" "" "" 1 = (emptyDB, OpResult.validationError))
    ∧ (addQuestion emptyDB 1 "Q" "a" "b" "c" "d" 2).2 = OpResult.ok :=
  ⟨((C4_correct_option_not_slot_checked emptyDB 1 1 "" "a" "b" "" "" 1).1
      (Or.inl rfl)).1,
   ((C4_correct_option_not_slot_checked emptyDB 1 1 "Q" "a" "b" "c" "d" 2).2
      (by decide) (by decide) (by decide)).1⟩

/-- Contradicts claim C4 as stated: an input whose `correct_option = 3`
names an empty option3 is NOT rejected — the insert succeeds and the
persisted row carries `correct_option = 3` with `option3 = NULL`. -/
theorem C4_counterexample_empty_slot_persisted :
    (addQuestion emptyDB 1 "Q" "a" "b" "" "" 3).2 = OpResult.ok
    ∧ ((addQuestion emptyDB 1 "Q" "a" "b" "" "" 3).1.questions.map
        (fun q => (q.correct_option, q.option3))) = [(3, (none : Option String))] := by
  decide

/-! ## Cascade-safety delete guards (claims C5, C6) -/

theorem pos_length_filter_iff {α : Type} (p : α → Bool) (l : List α) :
    0 < (l.filter p).length ↔ ∃ x ∈ l, p x = true := by
  rw [List.length_pos]
  constructor
  · intro h
    by_contra hno
    push_neg at hno
    exact h (List.filter_eq_nil_iff.mpr (fun a ha => by simp [hno a ha]))
  · rintro ⟨x, hx, hp⟩ hnil
    have : x ∈ l.filter p := List.mem_filter.mpr ⟨hx, hp⟩
    rw [hnil] at this
    exact List.not_mem_nil x this

/-- Claim C5.  Deleting a Subject with at least one Chapter fails with
HasDependentsError and changes nothing; the same holds for a Chapter with
at least one Quiz and a Quiz with at least one Question; with zero
dependent children the delete removes exactly the targeted row and leaves
the child table unchanged. -/
theorem C5_delete_blocked_by_children (db : DB) (sid cid qid : Nat) :
    ((∃ ch ∈ db.chapters, ch.subject_id = sid) →
        deleteSubject db sid = (db, OpResult.hasDependents))
    ∧ ((∀ ch ∈ db.chapters, ch.subject_id ≠ sid) →
        (deleteSubject db sid).2 = OpResult.ok
        ∧ (deleteSubject db sid).1.chapters = db.chapters
        ∧ ∀ s, s ∈ (deleteSubject db sid).1.subjects ↔ s ∈ db.subjects ∧ s.id ≠ sid)
    ∧ ((∃ qz ∈ db.quizzes, qz.chapter_id = cid) →
        deleteChapter db cid = (db, OpResult.hasDependents))
    ∧ ((∀ qz ∈ db.quizzes, qz.chapter_id ≠ cid) →
        (deleteChapter db cid).2 = OpResult.ok
        ∧ (deleteChapter db cid).1.quizzes = db.quizzes
        ∧ ∀ c, c ∈ (deleteChapter db cid).1.chapters ↔ c ∈ db.chapters ∧ c.id ≠ cid)
    ∧ ((∃ qu ∈ db.questions, qu.quiz_id = qid) →
        deleteQuiz db qid = (db, OpResult.hasDependents))
    ∧ ((∀ qu ∈ db.questions, qu.quiz_id ≠ qid) →
        (deleteQuiz db qid).2 = OpResult.ok
        ∧ (deleteQuiz db qid).1.questions = db.questions
        ∧ ∀ q, q ∈ (deleteQuiz db qid).1.quizzes ↔ q ∈ db.quizzes ∧ q.id ≠ qid) := by
  refine ⟨fun hex => ?_, fun hno => ?_, fun hex => ?_, fun hno => ?_,
    fun hex => ?_, fun hno => ?_⟩
  · obtain ⟨ch, hch, he⟩ := hex
    rw [deleteSubject,
      if_pos ((pos_length_filter_iff _ _).mpr ⟨ch, hch, by simp [he]⟩)]
  · have hg : ¬ 0 < (db.chapters.filter (fun c => c.subject_id == sid)).length := by
      rw [pos_length_filter_iff]
      rintro ⟨x, hx, hp⟩
      exact hno x hx (by simpa using hp)
    rw [deleteSubject, if_neg hg]
    refine ⟨rfl, rfl, fun s => ?_⟩
    simp [List.mem_filter]
  · obtain ⟨qz, hqz, he⟩ := hex
    rw [deleteChapter,
      if_pos ((pos_length_filter_iff _ _).mpr ⟨qz, hqz, by simp [he]⟩)]
  · have hg : ¬ 0 < (db.quizzes.filter (fun q => q.chapter_id == cid)).length := by
      rw [pos_length_filter_iff]
      rintro ⟨x, hx, hp⟩
      exact hno x hx (by simpa using hp)
    rw [deleteChapter, if_neg hg]
    refine ⟨rfl, rfl, fun c => ?_⟩
    simp [List.mem_filter]
  · obtain ⟨qu, hqu, he⟩ := hex
    rw [deleteQuiz,
      if_pos ((pos_length_filter_iff _ _).mpr ⟨qu, hqu, by simp [he]⟩)]
  · have hg : ¬ 0 < (db.questions.filter (fun q => q.quiz_id == qid)).length := by
      rw [pos_length_filter_iff]
      rintro ⟨x, hx, hp⟩
      exact hno x hx (by simpa using hp)
    rw [deleteQuiz, if_neg hg]
    refine ⟨rfl, rfl, fun q => ?_⟩
    simp [List.mem_filter]

/-- One subject with one chapter, holding `demoQuiz` and its question. -/
def catalogDB : DB :=
  { users := [demoUser],
    subjects := [{ id := 1, name := "Math", description := "" }],
    chapters := [{ id := 1, subject_id := 1, name := "Algebra", description := "" }],
    quizzes := [demoQuiz], questions := [demoQuestion], scores := [] }

theorem C5_delete_blocked_by_children_witness :
    deleteSubject catalogDB 1 = (catalogDB, OpResult.hasDependents)
    ∧ deleteChapter catalogDB 1 = (catalogDB, OpResult.hasDependents)
    ∧ deleteQuiz catalogDB 1 = (catalogDB, OpResult.hasDependents)
    ∧ (deleteQuiz { catalogDB with questions := [] } 1).2 = OpResult.ok :=
  ⟨(C5_delete_blocked_by_children catalogDB 1 1 1).1
      ⟨{ id := 1, subject_id := 1, name := "Algebra", description := "" },
        by decide, rfl⟩,
   (C5_delete_blocked_by_children catalogDB 1 1 1).2.2.1
      ⟨demoQuiz, by decide, rfl⟩,
   (C5_delete_blocked_by_children catalogDB 1 1 1).2.2.2.2.1
      ⟨demoQuestion, by decide, rfl⟩,
   ((C5_delete_blocked_by_children { catalogDB with questions := [] } 1 1 1).2.2.2.2.2
      (by intro qu h; exact absurd h (List.not_mem_nil qu))).1⟩

/-- Claim C6 (amended).  The quiz delete guard counts ONLY Question rows:
with at least one Question the delete is blocked, but a Quiz with zero
Questions is deleted even when Score rows reference it — the quiz row is
removed, the scores table is left untouched, and those Score rows become
orphaned. -/
theorem C6_quiz_delete_ignores_scores (db : DB) (qid : Nat) :
    ((∃ qu ∈ db.questions, qu.quiz_id = qid) →
        deleteQuiz db qid = (db, OpResult.hasDependents))
    ∧ ((∀ qu ∈ db.questions, qu.quiz_id ≠ qid) →
        (deleteQuiz db qid).2 = OpResult.ok
        ∧ (deleteQuiz db qid).1.scores = db.scores
        ∧ ∀ q ∈ db.quizzes, q.id = qid → q ∉ (deleteQuiz db qid).1.quizzes) := by
  constructor
  · rintro ⟨qu, hqu, he⟩
    rw [deleteQuiz,
      if_pos ((pos_length_filter_iff _ _).mpr ⟨qu, hqu, by simp [he]⟩)]
  · intro hno
    have hg : ¬ 0 < (db.questions.filter (fun q => q.quiz_id == qid)).length := by
      rw [pos_length_filter_iff]
      rintro ⟨x, hx, hp⟩
      exact hno x hx (by simpa using hp)
    rw [deleteQuiz, if_neg hg]
    refine ⟨rfl, rfl, fun q _ hid hmem => ?_⟩
    have := (List.mem_filter.mp hmem).2
    simp [hid] at this

/-- `demoQuiz` with zero questions but one Score row referencing it. -/
def orphanDB : DB :=
  { users := [demoUser], subjects := [], chapters := [], quizzes := [demoQuiz],
    questions := [],
    scores := [{ id := 1, quiz_id := 1, user_id := 5,
                 time_stamp := "2026-01-01 10:00:00", total_scored := 1,
                 total_questions := 1 }] }

theorem C6_quiz_delete_ignores_scores_witness :
    (deleteQuiz orphanDB 1).2 = OpResult.ok
    ∧ (deleteQuiz orphanDB 1).1.scores = orphanDB.scores :=
  ⟨((C6_quiz_delete_ignores_scores orphanDB 1).2
      (fun qu h => absurd h (List.not_mem_nil qu))).1,
   ((C6_quiz_delete_ignores_scores orphanDB 1).2
      (fun qu h => absurd h (List.not_mem_nil qu))).2.1⟩

/-- Contradicts claim C6 as stated: a Quiz with zero Questions but one
Score row is NOT blocked — the delete removes the quiz row and leaves the
Score row behind, orphaned. -/
theorem C6_counterexample_orphaning_delete :
    (deleteQuiz orphanDB 1).2 = OpResult.ok
    ∧ (deleteQuiz orphanDB 1).1.quizzes = []
    ∧ (deleteQuiz orphanDB 1).1.scores = orphanDB.scores
    ∧ 0 < orphanDB.scores.length := by
  decide

/-! ## User deletion (claim C7) -/

/-- Claim C7.  User deletion checks the target row's STORED role first: an
admin role fails with ProtectedAccountError (so the seeded admin is never
deletable — the handler consults no caller identity at all); otherwise an
existing Score row referencing the user fails with HasDependentsError;
otherwise exactly the targeted user row is deleted.  In every failure
case the whole state, in particular the users and scores tables, is
unchanged. -/
theorem C7_user_delete_protection (db : DB) (uid : Nat) (u : User)
    (hfind : db.users.find? (fun v => v.id == uid) = some u) :
    (u.role = "admin" → deleteUser db uid = (db, OpResult.protectedAccount))
    ∧ (u.role ≠ "admin" → (∃ s ∈ db.scores, s.user_id = uid) →
        deleteUser db uid = (db, OpResult.hasDependents))
    ∧ (u.role ≠ "admin" → (∀ s ∈ db.scores, s.user_id ≠ uid) →
        (deleteUser db uid).2 = OpResult.ok
        ∧ (deleteUser db uid).1.scores = db.scores
        ∧ ∀ v, v ∈ (deleteUser db uid).1.users ↔ v ∈ db.users ∧ v.id ≠ uid) := by
  refine ⟨fun hadmin => ?_, fun hnadmin hex => ?_, fun hnadmin hno => ?_⟩
  · rw [deleteUser, hfind]
    simp only [if_pos hadmin]
  · obtain ⟨s, hs, he⟩ := hex
    have hpos : 0 < (db.scores.filter (fun s => s.user_id == uid)).length :=
      (pos_length_filter_iff _ _).mpr ⟨s, hs, by simp [he]⟩
    rw [deleteUser, hfind]
    simp only [if_neg hnadmin, if_pos hpos]
  · have hg : ¬ 0 < (db.scores.filter (fun s => s.user_id == uid)).length := by
      rw [pos_length_filter_iff]
      rintro ⟨x, hx, hp⟩
      exact hno x hx (by simpa using hp)
    rw [deleteUser, hfind]
    simp only [if_neg hnadmin, if_neg hg]
    refine ⟨?_, ?_, fun v => ?_⟩
    · exact trivial
    · exact trivial
    · simp [List.mem_filter]

/-- The seeded administrator account (`src/app.py:78-79`). -/
def seededAdmin : User :=
  { id := 1, username := "admin", password := "admin123",
    full_name := some "Admin User", qualification := none, dob := none,
    role := "admin", email := none, last_login := none }

/-- A second regular user with no quiz attempts. -/
def demoUserBob : User :=
  { id := 7, username := "bob", password := "pw2", full_name := some "Bob",
    qualification := none, dob := none, role := "user", email := none,
    last_login := none }

/-- Seeded admin, `demoUser` (who has one score) and `demoUserBob`. -/
def usersDB : DB :=
  { users := [seededAdmin, demoUser, demoUserBob], subjects := [], chapters := [],
    quizzes := [demoQuiz], questions := [],
    scores := [{ id := 1, quiz_id := 1, user_id := 5,
                 time_stamp := "2026-01-01 10:00:00", total_scored := 1,
                 total_questions := 1 }] }

theorem C7_user_delete_protection_witness :
    deleteUser usersDB 1 = (usersDB, OpResult.protectedAccount)
    ∧ deleteUser usersDB 5 = (usersDB, OpResult.hasDependents)
    ∧ (deleteUser usersDB 7).2 = OpResult.ok :=
  ⟨(C7_user_delete_protection usersDB 1 seededAdmin (by decide)).1 rfl,
   (C7_user_delete_protection usersDB 5 demoUser (by decide)).2.1 (by decide)
      ⟨{ id := 1, quiz_id := 1, user_id := 5, time_stamp := "2026-01-01 10:00:00",
         total_scored := 1, total_questions := 1 }, by decide, rfl⟩,
   ((C7_user_delete_protection usersDB 7 demoUserBob (by decide)).2.2 (by decide)
      (by decide)).1⟩

/-! ## Registration (claim C8) -/

/-- Claim C8.  Registration fails with ValidationError when the two
submitted passwords differ and with DuplicateUserError when the username
already exists, in both cases committing no write (the whole state, and
in particular any existing row with that username, is unchanged);
otherwise it inserts exactly one new user row whose role defaults to
"user". -/
theorem C8_registration (db : DB) (username password confirm full_name email : String) :
    (password ≠ confirm →
        register db username password confirm full_name email
          = (db, OpResult.validationError))
    ∧ (password = confirm → (∃ u ∈ db.users, u.username = username) →
        register db username password confirm full_name email
          = (db, OpResult.duplicateUser))
    ∧ (password = confirm → (∀ u ∈ db.users, u.username ≠ username) →
        (register db username password confirm full_name email).2 = OpResult.ok
        ∧ ∃ nu, (register db username password confirm full_name email).1.users
              = db.users ++ [nu]
            ∧ nu.username = username ∧ nu.password = password ∧ nu.role = "user") := by
  refine ⟨fun hne => ?_, fun heq hdup => ?_, fun heq hfresh => ?_⟩
  · rw [register, if_pos hne]
  · obtain ⟨u, hu, he⟩ := hdup
    have hany : db.users.any (fun u => u.username == username) = true :=
      List.any_eq_true.mpr ⟨u, hu, by simp [he]⟩
    rw [register, if_neg (by simpa using heq), if_pos hany]
  · have hany : ¬ db.users.any (fun u => u.username == username) = true := by
      rw [List.any_eq_true]
      rintro ⟨u, hu, hp⟩
      exact hfresh u hu (by simpa using hp)
    rw [register, if_neg (by simpa using heq), if_neg hany]
    exact ⟨rfl, ⟨_, rfl, rfl, rfl, rfl⟩⟩

theorem C8_registration_witness :
    register usersDB "alice" "x" "y" "Alice" "a@b.c" = (usersDB, OpResult.validationError)
    ∧ register usersDB "alice" "x" "x" "Alice" "a@b.c" = (usersDB, OpResult.duplicateUser)
    ∧ (register usersDB "carol" "x" "x" "Carol" "c@b.c").2 = OpResult.ok :=
  ⟨(C8_registration usersDB "alice" "x" "y" "Alice" "a@b.c").1 (by decide),
   (C8_registration usersDB "alice" "x" "x" "Alice" "a@b.c").2.1 rfl
      ⟨demoUser, by decide, rfl⟩,
   ((C8_registration usersDB "carol" "x" "x" "Carol" "c@b.c").2.2 rfl (by decide)).1⟩

/-! ## Subject name validation (claim C9) -/

/-- Claim C9 (amended).  Subject creation and update check the RAW
submitted name (Python truthiness): only the literally empty string is
rejected with ValidationError, with no row inserted or changed.  Any
non-empty name — including one consisting only of whitespace — is
accepted, and the stored name is the trimmed value, so a whitespace-only
name is persisted as the empty string. -/
theorem C9_subject_name_raw_emptiness_check (db : DB) (sid : Nat) (name desc : String) :
    (name = "" →
        addSubject db name desc = (db, OpResult.validationError)
        ∧ updateSubject db sid name desc = (db, OpResult.validationError))
    ∧ (name ≠ "" →
        (addSubject db name desc).2 = OpResult.ok
        ∧ (∃ s, (addSubject db name desc).1.subjects = db.subjects ++ [s]
            ∧ s.name = pyStrip name ∧ s.description = pyStrip desc)
        ∧ (updateSubject db sid name desc).2 = OpResult.ok
        ∧ ∀ s ∈ (updateSubject db sid name desc).1.subjects,
            s ∈ db.subjects ∨ s.name = pyStrip name) := by
  constructor
  · intro he
    exact ⟨by rw [addSubject, if_pos he], by rw [updateSubject, if_pos he]⟩
  · intro hne
    refine ⟨?_, ?_, ?_, ?_⟩
    · rw [addSubject, if_neg hne]
    · rw [addSubject, if_neg hne]
      exact ⟨_, rfl, rfl, rfl⟩
    · rw [updateSubject, if_neg hne]
    · rw [updateSubject, if_neg hne]
      intro s hs
      simp only [List.mem_map] at hs
      obtain ⟨x, hx, hfx⟩ := hs
      by_cases hid : (x.id == sid) = true
      · rw [if_pos hid] at hfx
        exact Or.inr (by rw [← hfx])
      · rw [if_neg hid] at hfx
        exact Or.inl (hfx ▸ hx)

theorem C9_subject_name_raw_emptiness_check_witness :
    addSubject emptyDB "" "d" = (emptyDB, OpResult.validationError)
    ∧ (addSubject emptyDB "Math" "d").2 = OpResult.ok :=
  ⟨((C9_subject_name_raw_emptiness_check emptyDB 1 "" "d").1 rfl).1,
   ((C9_subject_name_raw_emptiness_check emptyDB 1 "Math" "d").2 (by decide)).1⟩

/-- Contradicts claim C9 as stated: a whitespace-only subject name is NOT
rejected — the insert succeeds and the stored (trimmed) name is the empty
string. -/
theorem C9_counterexample_whitespace_name_accepted :
    (addSubject emptyDB " " "d").2 = OpResult.ok
    ∧ ((addSubject emptyDB " " "d").1.subjects.map Subject.name) = [""] := by
  decide

/-! ## Username immutability and update frames (claim C10) -/

theorem map_proj_of_conditional_update {γ : Type} (l : List User)
    (p : User → Bool) (f : User → User) (g : User → γ)
    (hg : ∀ u, g (f u) = g u) :
    ((l.map (fun u => if p u then f u else u)).map g) = l.map g := by
  induction l with
  | nil => rfl
  | cons u rest ih =>
      simp only [List.map_cons, ih]
      by_cases h : p u = true
      · rw [if_pos h, hg]
      · rw [if_neg h]

/-- Claim C10.  The admin user-update changes only full_name,
qualification, dob, email and role: every row keeps its id, username,
password and last_login, and rows whose id differs from the target are
unchanged entirely.  The self-service profile update changes only
full_name, qualification, dob, email and — only when a new password is
supplied — password: every row keeps its id, username, role and
last_login; with an empty new password every row also keeps its password;
and rows whose username differs from the authenticated one are unchanged
entirely.  Username (and row id) is immutable in both operations. -/
theorem C10_username_immutable_update_frames (db : DB) (uid : Nat)
    (fn qual dob email role : String)
    (username fn2 qual2 dob2 email2 npw cpw : String) :
    ((adminUpdateUser db uid fn qual dob email role).1.users.map
        (fun u => (u.id, u.username, u.password, u.last_login)))
      = db.users.map (fun u => (u.id, u.username, u.password, u.last_login))
    ∧ (∀ u ∈ db.users, u.id ≠ uid →
        u ∈ (adminUpdateUser db uid fn qual dob email role).1.users)
    ∧ ((profileUpdate db username fn2 qual2 dob2 email2 npw cpw).1.users.map
        (fun u => (u.id, u.username, u.role, u.last_login)))
      = db.users.map (fun u => (u.id, u.username, u.role, u.last_login))
    ∧ (npw = "" →
        ((profileUpdate db username fn2 qual2 dob2 email2 npw cpw).1.users.map
            (fun u => (u.id, u.username, u.password, u.role, u.last_login)))
          = db.users.map (fun u => (u.id, u.username, u.password, u.role, u.last_login)))
    ∧ (∀ u ∈ db.users, u.username ≠ username →
        u ∈ (profileUpdate db username fn2 qual2 dob2 email2 npw cpw).1.users) := by
  refine ⟨?_, ?_, ?_, ?_, ?_⟩
  · exact map_proj_of_conditional_update db.users _ _ _ (fun u => rfl)
  · intro u hu hne
    simp only [adminUpdateUser, List.mem_map]
    exact ⟨u, hu, by rw [if_neg (by simp [hne])]⟩
  · rw [profileUpdate]
    split
    · rfl
    · exact map_proj_of_conditional_update db.users _ _ _ (fun u => rfl)
  · intro hnpw
    subst hnpw
    rw [profileUpdate]
    split
    · rfl
    · exact map_proj_of_conditional_update db.users _ _ _
        (fun u => by simp)
  · intro u hu hne
    rw [profileUpdate]
    split
    · exact hu
    · simp only [List.mem_map]
      exact ⟨u, hu, by rw [if_neg (by simp [hne])]⟩

theorem C10_username_immutable_update_frames_witness :
    ((adminUpdateUser usersDB 5 "Alicia" "MSc" "2000-01-01" "a@b.c" "user").1.users.map
        (fun u => (u.id, u.username, u.password, u.last_login)))
      = usersDB.users.map (fun u => (u.id, u.username, u.password, u.last_login))
    ∧ seededAdmin ∈ (adminUpdateUser usersDB 5 "Alicia" "MSc" "2000-01-01" "a@b.c"
        "user").1.users
    ∧ ((profileUpdate usersDB "alice" "Alicia" "MSc" "2000-01-01" "a@b.c" "" "").1.users.map
        (fun u => (u.id, u.username, u.password, u.role, u.last_login)))
      = usersDB.users.map (fun u => (u.id, u.username, u.password, u.role, u.last_login)) :=
  ⟨(C10_username_immutable_update_frames usersDB 5 "Alicia" "MSc" "2000-01-01" "a@b.c"
      "user" "alice" "Alicia" "MSc" "2000-01-01" "a@b.c" "" "").1,
   (C10_username_immutable_update_frames usersDB 5 "Alicia" "MSc" "2000-01-01" "a@b.c"
      "user" "alice" "Alicia" "MSc" "2000-01-01" "a@b.c" "" "").2.1 seededAdmin
      (by decide) (by decide),
   (C10_username_immutable_update_frames usersDB 5 "Alicia" "MSc" "2000-01-01" "a@b.c"
      "user" "alice" "Alicia" "MSc" "2000-01-01" "a@b.c" "" "").2.2.2.1 rfl⟩
